import Mathlib

/-!
Verification of the telescope-emulator observation engine (Fitz1JS).

JavaScript numbers are modelled as rationals; the transcendental Math
primitives (cos, sqrt, exp, pow) and the constant Math.PI are abstracted
into a `JsMath` record of unspecified rational functions, and randomness
(Math.random, the Poisson and normal samplers) is supplied explicitly as
lists of draws or oracle functions.  Every definition mirrors the
corresponding JavaScript function of the repository.
-/

namespace Fitz

/-- Model of the JavaScript Math primitives used by the source: `pi` stands
for the double constant Math.PI, and the function fields stand for
Math.cos, Math.sqrt, Math.exp and Math.pow on doubles. -/
structure JsMath where
  pi : ℚ
  cos : ℚ → ℚ
  sqrt : ℚ → ℚ
  exp : ℚ → ℚ
  pow : ℚ → ℚ → ℚ

/-- Utils.degreesToRadians (src/unnamed/part_003 line 69). -/
def degreesToRadians (M : JsMath) (degrees : ℚ) : ℚ := degrees * M.pi / 180

/-- Utils.angularSeparation, the flat-sky separation formula
(src/unnamed/part_003 lines 174-178). -/
def angularSeparation (M : JsMath) (ra1 dec1 ra2 dec2 : ℚ) : ℚ :=
  let dra := (ra2 - ra1) * 15 * M.cos (degreesToRadians M dec1)
  let ddec := dec2 - dec1
  M.sqrt (dra * dra + ddec * ddec)

/-- The AstroObject record (src/js/catalog.js lines 3-15). -/
structure AstroObject where
  name : String
  ra : ℚ
  dec : ℚ
  mag : ℚ
  bv : ℚ
  ub : ℚ
  redshift : ℚ
  objType : ℕ
  code : ℤ
  specType : String
deriving DecidableEq

/-- The photometric band, the value of the currentFilter string ('U', 'B'
or 'V'); every lookup table in the source falls back to 'V' for other
strings, so the three-constructor type captures all behaviours. -/
inductive Band where
  | U : Band
  | B : Band
  | V : Band
deriving DecidableEq

/-- AstroObject.getMagnitude (src/js/catalog.js lines 18-28). -/
def getMagnitude (o : AstroObject) (filter : Band) : ℚ :=
  match filter with
  | Band.U => o.mag + o.bv + o.ub
  | Band.B => o.mag + o.bv
  | Band.V => o.mag

/-- AstroObject.isWithinRadius (src/js/catalog.js lines 31-34): the flat-sky
separation is compared against radiusArcsec / 3600 degrees. -/
def isWithinRadius (M : JsMath) (o : AstroObject)
    (centerRA centerDec radiusArcsec : ℚ) : Bool :=
  decide (angularSeparation M centerRA centerDec o.ra o.dec ≤ radiusArcsec / 3600)

/-- Catalog.findObjectsInAperture (src/js/catalog.js lines 141-145). -/
def findObjectsInAperture (M : JsMath) (objects : List AstroObject)
    (centerRA centerDec apertureArcsec : ℚ) : List AstroObject :=
  objects.filter (fun obj => isWithinRadius M obj centerRA centerDec apertureArcsec)

/-- The per-object slit test of Catalog.findObjectsInSlit
(src/js/catalog.js lines 155-177). -/
def inSlitTest (M : JsMath) (centerRA centerDec slitWidthDeg slitHeightDeg : ℚ)
    (obj : AstroObject) : Bool :=
  let cosDec := M.cos (degreesToRadians M centerDec)
  let dRA := |(obj.ra - centerRA) * 15 * cosDec|
  let dDec := |obj.dec - centerDec|
  decide (dRA ≤ slitWidthDeg / 2) && decide (dDec ≤ slitHeightDeg / 2)

/-- Catalog.findObjectsInSlit (src/js/catalog.js lines 148-186), logging
stripped. -/
def findObjectsInSlit (M : JsMath) (objects : List AstroObject)
    (centerRA centerDec slitWidthDeg slitHeightDeg : ℚ) : List AstroObject :=
  objects.filter (inSlitTest M centerRA centerDec slitWidthDeg slitHeightDeg)

/-- One step of the minimum-distance scans in Catalog.getNearestObject
(src/js/catalog.js lines 197-203); Infinity is modelled as the top element
of WithTop ℚ. -/
def nearestObjStep (M : JsMath) (ra dec : ℚ)
    (acc : Option AstroObject × WithTop ℚ) (obj : AstroObject) :
    Option AstroObject × WithTop ℚ :=
  let distance := angularSeparation M ra dec obj.ra obj.dec
  if (distance : WithTop ℚ) < acc.2 then (some obj, (distance : WithTop ℚ)) else acc

/-- Catalog.getNearestObject (src/js/catalog.js lines 189-206). -/
def getNearestObject (M : JsMath) (objects : List AstroObject) (ra dec : ℚ) :
    Option AstroObject × WithTop ℚ :=
  if objects.isEmpty then (none, ⊤)
  else objects.foldl (nearestObjStep M ra dec) (none, ⊤)

/-- CONSTANTS.SLIT_WIDTH_DEG (src/js/constants.js line 36). -/
def SLIT_WIDTH_DEG : ℚ := 0.3 / 60

/-- CONSTANTS.SLIT_HEIGHT_DEG (src/js/constants.js line 37). -/
def SLIT_HEIGHT_DEG : ℚ := 1.0 / 60

/-- One step of the nearest-to-slit-center scan in
SpectrometerController.updateSlitContents (src/js/spectrometer.js
lines 200-209). -/
def nearestStep (M : JsMath) (ra dec : ℚ) (acc : AstroObject × WithTop ℚ)
    (obj : AstroObject) : AstroObject × WithTop ℚ :=
  let dist := angularSeparation M ra dec obj.ra obj.dec
  if (dist : WithTop ℚ) < acc.2 then (obj, (dist : WithTop ℚ)) else acc

/-- The nearest-object fold of updateSlitContents: nearest starts at the
first slit object and minDist at Infinity (src/js/spectrometer.js
lines 196-209). -/
def slitNearestFold (M : JsMath) (ra dec : ℚ) (objs : List AstroObject)
    (first : AstroObject) : AstroObject :=
  (objs.foldl (nearestStep M ra dec) (first, (⊤ : WithTop ℚ))).1

/-- The slit-object selection of SpectrometerController.updateSlitContents
(src/js/spectrometer.js lines 173-218): detection uses ten times the slit
width and five times the slit height, finds the objects in that rectangle
and keeps the one nearest to the center, or none.  DOM updates stripped;
the returned value is the new currentObject. -/
def updateSlitContents (M : JsMath) (objects : List AstroObject)
    (centerRA centerDec : ℚ) : Option AstroObject :=
  let slitWidthDeg := SLIT_WIDTH_DEG * 10
  let slitHeightDeg := SLIT_HEIGHT_DEG * 5
  let objectsInSlit := findObjectsInSlit M objects centerRA centerDec slitWidthDeg slitHeightDeg
  match objectsInSlit with
  | [] => none
  | first :: rest => some (slitNearestFold M centerRA centerDec (first :: rest) first)

/-- The ascending while loop of Utils.normalizeHours: while (hours < 0)
hours += 24 (src/unnamed/part_003 line 138). -/
def normalizeHoursUp (hours : ℚ) : ℚ :=
  if hours < 0 then normalizeHoursUp (hours + 24) else hours
termination_by (⌈-hours / 24⌉).toNat
decreasing_by
  have h1 : (0 : ℚ) < -hours / 24 := by
    apply div_pos (by linarith) (by norm_num)
  have h2 : (0 : ℤ) < ⌈-hours / 24⌉ := Int.ceil_pos.mpr h1
  have h3 : -(hours + 24) / 24 = -hours / 24 - 1 := by ring
  have h4 : ⌈-(hours + 24) / 24⌉ = ⌈-hours / 24⌉ - 1 := by
    rw [h3]
    exact_mod_cast Int.ceil_sub_int (-hours / 24) 1
  omega

/-- The descending while loop of Utils.normalizeHours: while (hours >= 24)
hours -= 24 (src/unnamed/part_003 line 139). -/
def normalizeHoursDown (hours : ℚ) : ℚ :=
  if 24 ≤ hours then normalizeHoursDown (hours - 24) else hours
termination_by (⌊hours / 24⌋).toNat
decreasing_by
  have h1 : (1 : ℚ) ≤ hours / 24 := by
    rw [le_div_iff₀ (by norm_num : (0:ℚ) < 24)]
    linarith
  have h2 : (1 : ℤ) ≤ ⌊hours / 24⌋ := by
    exact_mod_cast Int.le_floor.mpr (by exact_mod_cast h1)
  have h3 : (hours - 24) / 24 = hours / 24 - 1 := by ring
  have h4 : ⌊(hours - 24) / 24⌋ = ⌊hours / 24⌋ - 1 := by
    rw [h3]
    exact_mod_cast Int.floor_sub_int (hours / 24) 1
  omega

/-- Utils.normalizeHours (src/unnamed/part_003 lines 137-141). -/
def normalizeHours (hours : ℚ) : ℚ := normalizeHoursDown (normalizeHoursUp hours)

/-- The ascending while loop of Utils.normalizeAngle: while (angle < 0)
angle += 360 (src/unnamed/part_003 line 132). -/
def normalizeAngleUp (angle : ℚ) : ℚ :=
  if angle < 0 then normalizeAngleUp (angle + 360) else angle
termination_by (⌈-angle / 360⌉).toNat
decreasing_by
  have h1 : (0 : ℚ) < -angle / 360 := by
    apply div_pos (by linarith) (by norm_num)
  have h2 : (0 : ℤ) < ⌈-angle / 360⌉ := Int.ceil_pos.mpr h1
  have h3 : -(angle + 360) / 360 = -angle / 360 - 1 := by ring
  have h4 : ⌈-(angle + 360) / 360⌉ = ⌈-angle / 360⌉ - 1 := by
    rw [h3]
    exact_mod_cast Int.ceil_sub_int (-angle / 360) 1
  omega

/-- The descending while loop of Utils.normalizeAngle: while (angle >= 360)
angle -= 360 (src/unnamed/part_003 line 133). -/
def normalizeAngleDown (angle : ℚ) : ℚ :=
  if 360 ≤ angle then normalizeAngleDown (angle - 360) else angle
termination_by (⌊angle / 360⌋).toNat
decreasing_by
  have h1 : (1 : ℚ) ≤ angle / 360 := by
    rw [le_div_iff₀ (by norm_num : (0:ℚ) < 360)]
    linarith
  have h2 : (1 : ℤ) ≤ ⌊angle / 360⌋ := by
    exact_mod_cast Int.le_floor.mpr (by exact_mod_cast h1)
  have h3 : (angle - 360) / 360 = angle / 360 - 1 := by ring
  have h4 : ⌊(angle - 360) / 360⌋ = ⌊angle / 360⌋ - 1 := by
    rw [h3]
    exact_mod_cast Int.floor_sub_int (angle / 360) 1
  omega

/-- Utils.normalizeAngle (src/unnamed/part_003 lines 131-135). -/
def normalizeAngle (angle : ℚ) : ℚ := normalizeAngleDown (normalizeAngleUp angle)

/-- A JavaScript Date, modelled by its integer millisecond timestamp
(the value of getTime()). -/
structure JsDate where
  ms : ℤ

/-- Date.prototype.getUTCHours on the millisecond timestamp. -/
def getUTCHours (d : JsDate) : ℤ := (d.ms.ediv 3600000).emod 24

/-- Date.prototype.getUTCMinutes on the millisecond timestamp. -/
def getUTCMinutes (d : JsDate) : ℤ := (d.ms.ediv 60000).emod 60

/-- Date.prototype.getUTCSeconds on the millisecond timestamp. -/
def getUTCSeconds (d : JsDate) : ℤ := (d.ms.ediv 1000).emod 60

/-- Utils.dateToJulianDay (src/unnamed/part_003 lines 126-128). -/
def dateToJulianDay (d : JsDate) : ℚ := ((d.ms : ℚ) / 86400000.0) + 2440587.5

/-- Utils.calculateLST (src/unnamed/part_003 lines 102-124). -/
def calculateLST (date : JsDate) (longitude : ℚ) : ℚ :=
  let jd := dateToJulianDay date
  let T := (jd - 2451545.0) / 36525.0
  let gmst := 280.46061837 + 360.98564736629 * (jd - 2451545.0) +
    0.000387933 * T * T - T * T * T / 38710000.0
  let hours := (getUTCHours date : ℚ) + (getUTCMinutes date : ℚ) / 60.0 +
    (getUTCSeconds date : ℚ) / 3600.0
  let gmst2 := gmst + 15.0 * hours
  let lst := gmst2 + longitude
  normalizeAngle lst / 15.0

/-- Modelled from the spec (section 4.1): the GMST polynomial
GMST = 280.46061837 + 360.98564736629 (JD - 2451545) + 0.000387933 T^2
- T^3 / 38710000 with T = (JD - 2451545) / 36525. -/
def specGMST (jd : ℚ) : ℚ :=
  280.46061837 + 360.98564736629 * (jd - 2451545.0) +
    0.000387933 * ((jd - 2451545.0) / 36525.0) ^ 2 -
    ((jd - 2451545.0) / 36525.0) ^ 3 / 38710000.0

/-- The fractional UTC hours since midnight of a date, read from its UTC
clock fields. -/
def fracUTCHours (d : JsDate) : ℚ :=
  (getUTCHours d : ℚ) + (getUTCMinutes d : ℚ) / 60 + (getUTCSeconds d : ℚ) / 3600

/-- Modelled from the spec (section 4.1): Local Sidereal Time as the spec
describes it, namely the Julian Day of t, the GMST polynomial, plus fifteen
times the fractional UTC hours since midnight, plus the longitude,
normalized to the range [0,360) degrees and divided by fifteen. -/
def specLST (date : JsDate) (longitude : ℚ) : ℚ :=
  normalizeAngle (specGMST (dateToJulianDay date) + 15 * fracUTCHours date + longitude) / 15

/-- The bracketing-index while loop of Utils.interpolateSpectrum
(src/unnamed/part_003 lines 269-272): advance i while i is below the last
index and the source wavelength at i is below the target. -/
def interpScan (src : List ℚ) (t : ℚ) (i : ℕ) : ℕ :=
  if i < src.length - 1 ∧ src.getD i 0 < t then interpScan src t (i + 1) else i
termination_by src.length - i
decreasing_by omega

/-- The per-target body of Utils.interpolateSpectrum
(src/unnamed/part_003 lines 267-291). -/
def interpolateOne (sourceWavelengths sourceSpectrum : List ℚ) (targetWave : ℚ) : ℚ :=
  let i := interpScan sourceWavelengths targetWave 0
  if i = 0 then sourceSpectrum.getD 0 0
  else if sourceWavelengths.length ≤ i then
    sourceSpectrum.getD (sourceSpectrum.length - 1) 0
  else
    let w1 := sourceWavelengths.getD (i - 1) 0
    let w2 := sourceWavelengths.getD i 0
    let f1 := sourceSpectrum.getD (i - 1) 0
    let f2 := sourceSpectrum.getD i 0
    let fraction := (targetWave - w1) / (w2 - w1)
    f1 + fraction * (f2 - f1)

/-- Utils.interpolateSpectrum (src/unnamed/part_003 lines 264-294). -/
def interpolateSpectrum (sourceWavelengths sourceSpectrum targetWavelengths : List ℚ) :
    List ℚ :=
  targetWavelengths.map (interpolateOne sourceWavelengths sourceSpectrum)

/-- JavaScript Math.round on a rational: the floor of x + 1/2. -/
def jsRound (x : ℚ) : ℤ := ⌊x + 1 / 2⌋

/-- JavaScript Math.sign on a rational. -/
def jsSign (x : ℚ) : ℚ := if 0 < x then 1 else if x < 0 then -1 else 0

/-- The do-while loop of Utils.poissonRandom for small lambda
(src/unnamed/part_003 lines 194-201): k starts at 0 and p at 1; each pass
increments k and multiplies p by the next uniform draw, stopping as soon as
p is no longer above L; the returned value is k - 1.  The uniform draws are
supplied as a list; none is returned if the loop outlives the list. -/
def knuthLoop (L p : ℚ) (k : ℕ) (us : List ℚ) : Option ℕ :=
  match us with
  | [] => none
  | u :: rest =>
    let p2 := p * u
    let k2 := k + 1
    if L < p2 then knuthLoop L p2 k2 rest else some (k2 - 1)

/-- Utils.poissonRandom (src/unnamed/part_003 lines 191-206); the uniform
draws for the Knuth branch are supplied as a list and the standard normal
variate for the large-lambda branch as z. -/
def poissonRandom (M : JsMath) (us : List ℚ) (z : ℚ) (lambda : ℚ) : Option ℤ :=
  if lambda < 30 then
    (knuthLoop (M.exp (-lambda)) 1 0 us).map Int.ofNat
  else
    some (max 0 (jsRound (lambda + M.sqrt lambda * z)))

/-- Modelled from the claim wording for C8: the number of uniform draws
taken until the running product, starting from p, first falls to L or
below; none if the supplied draws never bring it there. -/
def drawsToFall (L p : ℚ) (us : List ℚ) : Option ℕ :=
  match us with
  | [] => none
  | u :: rest =>
    if p * u ≤ L then some 1 else (drawsToFall L (p * u) rest).map (· + 1)

/-- A telescope configuration record (src/js/constants.js lines 66-88). -/
structure Telescope where
  name : String
  diameter : ℚ
  latitude : ℚ
  longitude : ℚ
  altitude : ℚ

/-- CONSTANTS.DEFAULT_TELESCOPE_DIAM (src/js/constants.js line 9). -/
def DEFAULT_TELESCOPE_DIAM : ℚ := 0.3048

/-- CONSTANTS.ZERO_POINT_PHOTONS (src/js/constants.js lines 15-19). -/
def ZERO_POINT_PHOTONS : Band → ℚ
  | Band.U => 1.8e10
  | Band.B => 4.0e10
  | Band.V => 3.6e10

/-- CONSTANTS.EXTINCTION_COEFF (src/js/constants.js lines 21-25). -/
def EXTINCTION_COEFF : Band → ℚ
  | Band.U => 0.50
  | Band.B => 0.25
  | Band.V => 0.15

/-- CONSTANTS.SKY_BRIGHTNESS (src/js/constants.js lines 27-31). -/
def SKY_BRIGHTNESS : Band → ℚ
  | Band.U => 22.0
  | Band.B => 22.7
  | Band.V => 21.6

/-- CONSTANTS.H_PLANCK (src/js/constants.js line 4). -/
def H_PLANCK : ℚ := 6.62607015e-34

/-- CONSTANTS.C_LIGHT (src/js/constants.js line 5). -/
def C_LIGHT : ℚ := 2.99792458e8

/-- Utils.magToFlux (src/unnamed/part_003 lines 181-184). -/
def magToFlux (M : JsMath) (mag : ℚ) (band : Band) : ℚ :=
  ZERO_POINT_PHOTONS band * M.pow 10 (-0.4 * mag)

/-- Utils.applyExtinction (src/unnamed/part_003 lines 186-189). -/
def applyExtinction (M : JsMath) (flux : ℚ) (band : Band) (airmass : ℚ) : ℚ :=
  flux * M.pow 10 (-0.4 * EXTINCTION_COEFF band * airmass)

/-- The Poisson mean of the sky-background draw in
PhotometerController.simulatePhotometry (src/js/photometer.js
lines 672-675). -/
def skyLambda (M : JsMath) (currentFilter : Band)
    (apertureArcsec integrationTime airmass telescopeDiameter : ℚ) : ℚ :=
  let telescopeArea := M.pi * (telescopeDiameter / 2) ^ 2
  let apertureArea := M.pi * (apertureArcsec / 3600 * M.pi / 180) ^ 2
  let skyMag := SKY_BRIGHTNESS currentFilter
  let skyFlux := magToFlux M skyMag currentFilter
  let skyFluxExtinct := applyExtinction M skyFlux currentFilter airmass
  skyFluxExtinct * telescopeArea * integrationTime * apertureArea * 1e10

/-- PhotometerController.simulatePhotometry (src/js/photometer.js
lines 664-717).  The Poisson sampler is supplied as an oracle prand keyed
by its mean, and the standard normal draw for the scintillation term of the
i-th object as nrand i; the result object is modelled as the list of its
(name, counts) entries in insertion order. -/
def simulatePhotometry (M : JsMath) (prand : ℚ → ℤ) (nrand : ℕ → ℚ)
    (atmosphereEnabled : Bool) (currentFilter : Band)
    (objects : List AstroObject) (apertureArcsec integrationTime airmass : ℚ)
    (telescope : Option Telescope) : List (String × ℤ) :=
  let telescopeDiameter :=
    match telescope with
    | some t => t.diameter
    | none => DEFAULT_TELESCOPE_DIAM
  let telescopeArea := M.pi * (telescopeDiameter / 2) ^ 2
  let apertureArea := M.pi * (apertureArcsec / 3600 * M.pi / 180) ^ 2
  let skyEntries :=
    if atmosphereEnabled then
      let skyMag := SKY_BRIGHTNESS currentFilter
      let skyFlux := magToFlux M skyMag currentFilter
      let skyFluxExtinct := applyExtinction M skyFlux currentFilter airmass
      let skyPhotons := skyFluxExtinct * telescopeArea * integrationTime * apertureArea * 1e10
      let skyCounts := prand skyPhotons
      if objects.isEmpty then [("SKY", skyCounts)] else []
    else []
  let objEntries := objects.enum.map (fun p =>
    let obj := p.2
    let objMag := getMagnitude obj currentFilter
    let objFlux := magToFlux M objMag currentFilter
    let objFluxExtinct :=
      if atmosphereEnabled then applyExtinction M objFlux currentFilter airmass else objFlux
    let objPhotons := objFluxExtinct * telescopeArea * integrationTime
    let objCounts := prand objPhotons
    let skyPart : ℚ :=
      if atmosphereEnabled then
        let skyMag := SKY_BRIGHTNESS currentFilter
        let skyFlux := magToFlux M skyMag currentFilter
        let skyFluxExtinct := applyExtinction M skyFlux currentFilter airmass
        let skyPhotons := skyFluxExtinct * telescopeArea * integrationTime * apertureArea * 1e10
        ((prand skyPhotons : ℤ) : ℚ)
      else 0
    let scintPart : ℚ :=
      match atmosphereEnabled, telescope with
      | true, some t =>
        let sigma := 0.09 * M.pow telescopeDiameter (-2 / 3) * M.pow airmass (7 / 4) *
          M.exp (-t.altitude / 8000) * M.pow integrationTime (-0.5)
        nrand p.1 * sigma * (objCounts : ℚ)
      | _, _ => 0
    let totalCounts : ℚ := (objCounts : ℚ) + skyPart + scintPart
    (obj.name, max 0 (jsRound totalCounts)))
  skyEntries ++ objEntries

/-- The photon-rate computation of SpectrometerController.generateSpectrum
(src/js/spectrometer.js lines 327-332): each relative flux is turned into a
rate and floored at 0.01. -/
def generateSpectrumRates (relativeFlux wavelengths : List ℚ)
    (fluxSI telescopeArea : ℚ) : List ℚ :=
  relativeFlux.enum.map (fun p =>
    let flux := p.2
    let wavelengthM := wavelengths.getD p.1 0 * 1e-10
    let photonEnergy := H_PLANCK * C_LIGHT / wavelengthM
    let rate := flux * (fluxSI / photonEnergy) * telescopeArea
    max 0.01 rate)

/-- SpectrometerController.generateSpectrum (src/js/spectrometer.js
lines 291-340), from the point where the relative-flux spectrum of the slit
object is in hand; the relative flux is passed in since its synthesis is an
asynchronous library lookup. -/
def generateSpectrum (M : JsMath) (obj : AstroObject)
    (relativeFlux wavelengths : List ℚ) (telescopeDiam : ℚ) : List ℚ :=
  let telescopeArea := M.pi * (telescopeDiam / 2) ^ 2
  let effectiveMag := if obj.objType = 1 then obj.mag * 0.45 else obj.mag
  let baseFlux := M.pow 10 (-0.4 * (effectiveMag + 21.10))
  let fluxSI := baseFlux * 1e-3
  generateSpectrumRates relativeFlux wavelengths fluxSI telescopeArea

/-- A slew-speed table entry (src/js/constants.js lines 40-46). -/
structure SlewSpeed where
  step : ℚ
  interval : ℚ
  label : String

/-- CONSTANTS.SLEW_SPEEDS (src/js/constants.js lines 40-46). -/
def SLEW_SPEEDS : List SlewSpeed :=
  [⟨0.0005, 50, "Slew: Ultra Slow"⟩,
   ⟨0.001, 25, "Slew: Slow"⟩,
   ⟨0.001, 12.5, "Slew: Medium"⟩,
   ⟨0.002, 12.5, "Slew: Fast"⟩,
   ⟨0.04, 12.5, "Slew: Ultra Fast"⟩]

/-- The slewing-relevant state of TelescopeController
(src/js/telescope.js lines 4-20); slewTimerOn models whether the interval
timer is set. -/
structure TelescopeState where
  centerRA : ℚ
  centerDec : ℚ
  slewSpeedIndex : ℕ
  slewActive : Bool
  slewDirection : ℚ × ℚ
  slewTimerOn : Bool
  autoSlewTarget : Option (ℚ × ℚ)
  autoSlewActive : Bool

/-- TelescopeController.stopSlewing (src/js/telescope.js lines 314-320). -/
def stopSlewing (s : TelescopeState) : TelescopeState :=
  { s with slewActive := false, slewTimerOn := false }

/-- TelescopeController.abortSlewing (src/js/telescope.js lines 322-326). -/
def abortSlewing (s : TelescopeState) : TelescopeState :=
  let s1 := stopSlewing s
  { s1 with autoSlewActive := false, autoSlewTarget := none }

/-- The RA-difference wrap of performSlewStep (src/js/telescope.js
lines 339-341): subtract 24 above 12, then add 24 below -12. -/
def wrapRA (dRA : ℚ) : ℚ :=
  let w1 := if 12 < dRA then dRA - 24 else dRA
  if w1 < -12 then w1 + 24 else w1

/-- TelescopeController.performSlewStep (src/js/telescope.js
lines 328-370), display update stripped. -/
def performSlewStep (s : TelescopeState) : TelescopeState :=
  let speed := SLEW_SPEEDS.getD s.slewSpeedIndex ⟨0, 0, ""⟩
  let stepDeg := speed.step
  let stepRA := stepDeg / 15
  let s1 :=
    match s.autoSlewActive, s.autoSlewTarget with
    | true, some target =>
      let dRA := target.1 - s.centerRA
      let dDec := target.2 - s.centerDec
      let wrappedDRA := wrapRA dRA
      let newRA :=
        if stepRA < |wrappedDRA| then s.centerRA + jsSign wrappedDRA * stepRA else target.1
      let newDec :=
        if stepDeg < |dDec| then s.centerDec + jsSign dDec * stepDeg else target.2
      let s2 := { s with centerRA := newRA, centerDec := newDec }
      if |wrappedDRA| ≤ stepRA ∧ |dDec| ≤ stepDeg then abortSlewing s2 else s2
    | _, _ =>
      { s with centerRA := s.centerRA + s.slewDirection.1 * stepRA,
               centerDec := s.centerDec + s.slewDirection.2 * stepDeg }
  { s1 with centerRA := normalizeHours s1.centerRA,
            centerDec := max (-90) (min 90 s1.centerDec) }

/-- A trivial Math instance: every primitive returns 0.  Used to
instantiate universally quantified theorems at a concrete input. -/
def Mtriv : JsMath :=
  { pi := 0, cos := fun _ => 0, sqrt := fun _ => 0, exp := fun _ => 0,
    pow := fun _ _ => 0 }

/-- Math instance for the aperture counterexample: pi is the double value
of Math.PI; cos is pinned to its true value 1 at the only queried point 0,
and sqrt to its true value 1/2400 at the only queried radicand 1/5760000. -/
def Mc1 : JsMath :=
  { pi := 884279719003555 / 281474976710656,
    cos := fun q => if q = 0 then 1 else 0,
    sqrt := fun q => if q = 1 / 5760000 then 1 / 2400 else 0,
    exp := fun _ => 0,
    pow := fun _ _ => 0 }

/-- A star sitting 1/2400 degree north of the aperture counterexample's
pointing center (0,0). -/
def obj1 : AstroObject :=
  ⟨"T1", 0, 1 / 2400, 10, 0, 0, 0, 0, 0, "G5 V"⟩

/-- Math instance for the slit counterexample: pi is the double value of
Math.PI; cos is pinned to its true value 1 at the only queried point 0. -/
def Mc4 : JsMath :=
  { pi := 884279719003555 / 281474976710656,
    cos := fun q => if q = 0 then 1 else 0,
    sqrt := fun _ => 0,
    exp := fun _ => 0,
    pow := fun _ _ => 0 }

/-- A star offset 1/100 degree in RA from the slit counterexample's
pointing center (0,0): inside the widened detection rectangle but outside
the nominal slit. -/
def obj4 : AstroObject :=
  ⟨"T4", 1 / 1500, 0, 10, 0, 0, 0, 0, 0, "F5 V"⟩

/-- Math instance for the Poisson witness: sqrt is pinned to 5 at the only
queried point 31. -/
def M8 : JsMath :=
  { pi := 0, cos := fun _ => 0, sqrt := fun q => if q = 31 then 5 else 0,
    exp := fun _ => 0, pow := fun _ _ => 0 }

/-- A star whose spectrum witnesses the rate floor. -/
def obj10 : AstroObject :=
  ⟨"T10", 0, 0, 12, 0, 0, 0, 0, 0, "A0 V"⟩

/-- The initial telescope state of end-to-end scenario B: pointing at
(RA 0h, Dec 0) with an active auto-slew to (RA 23h, Dec 0) at medium
speed. -/
def slewB : TelescopeState :=
  { centerRA := 0, centerDec := 0, slewSpeedIndex := 2, slewActive := true,
    slewDirection := (0, 0), slewTimerOn := true,
    autoSlewTarget := some (23, 0), autoSlewActive := true }

theorem normalizeHoursUp_nonneg (hours : ℚ) : 0 ≤ normalizeHoursUp hours := by
  induction hours using normalizeHoursUp.induct with
  | case1 h hneg ih =>
    rw [normalizeHoursUp, if_pos hneg]
    exact ih
  | case2 h hpos =>
    rw [normalizeHoursUp, if_neg hpos]
    exact le_of_not_lt hpos

theorem normalizeHoursDown_lt (hours : ℚ) : normalizeHoursDown hours < 24 := by
  induction hours using normalizeHoursDown.induct with
  | case1 h hge ih =>
    rw [normalizeHoursDown, if_pos hge]
    exact ih
  | case2 h hlt =>
    rw [normalizeHoursDown, if_neg hlt]
    exact lt_of_not_le hlt

theorem normalizeHoursDown_nonneg (hours : ℚ) (hh : 0 ≤ hours) :
    0 ≤ normalizeHoursDown hours := by
  induction hours using normalizeHoursDown.induct with
  | case1 h hge ih =>
    rw [normalizeHoursDown, if_pos hge]
    exact ih (by linarith)
  | case2 h hlt =>
    rw [normalizeHoursDown, if_neg hlt]
    exact hh

theorem normalizeHours_nonneg (hours : ℚ) : 0 ≤ normalizeHours hours :=
  normalizeHoursDown_nonneg _ (normalizeHoursUp_nonneg hours)

theorem normalizeHours_lt (hours : ℚ) : normalizeHours hours < 24 :=
  normalizeHoursDown_lt _

theorem normalizeHours_eq_self (hours : ℚ) (h0 : 0 ≤ hours) (h1 : hours < 24) :
    normalizeHours hours = hours := by
  rw [normalizeHours, normalizeHoursUp, if_neg (not_lt.mpr h0),
    normalizeHoursDown, if_neg (not_le.mpr h1)]

theorem normalizeHours_of_neg (hours : ℚ) (h0 : -24 ≤ hours) (h1 : hours < 0) :
    normalizeHours hours = hours + 24 := by
  rw [normalizeHours, normalizeHoursUp, if_pos h1, normalizeHoursUp,
    if_neg (by linarith), normalizeHoursDown, if_neg (by push_neg; linarith)]

theorem normalizeAngleUp_nonneg (angle : ℚ) : 0 ≤ normalizeAngleUp angle := by
  induction angle using normalizeAngleUp.induct with
  | case1 a hneg ih =>
    rw [normalizeAngleUp, if_pos hneg]
    exact ih
  | case2 a hpos =>
    rw [normalizeAngleUp, if_neg hpos]
    exact le_of_not_lt hpos

theorem normalizeAngleDown_lt (angle : ℚ) : normalizeAngleDown angle < 360 := by
  induction angle using normalizeAngleDown.induct with
  | case1 a hge ih =>
    rw [normalizeAngleDown, if_pos hge]
    exact ih
  | case2 a hlt =>
    rw [normalizeAngleDown, if_neg hlt]
    exact lt_of_not_le hlt

theorem normalizeAngleDown_nonneg (angle : ℚ) (hh : 0 ≤ angle) :
    0 ≤ normalizeAngleDown angle := by
  induction angle using normalizeAngleDown.induct with
  | case1 a hge ih =>
    rw [normalizeAngleDown, if_pos hge]
    exact ih (by linarith)
  | case2 a hlt =>
    rw [normalizeAngleDown, if_neg hlt]
    exact hh

theorem normalizeAngle_nonneg (angle : ℚ) : 0 ≤ normalizeAngle angle :=
  normalizeAngleDown_nonneg _ (normalizeAngleUp_nonneg angle)

theorem normalizeAngle_lt (angle : ℚ) : normalizeAngle angle < 360 :=
  normalizeAngleDown_lt _

/-- Claim C6: after every slew step, manual or auto, the pointing satisfies
centerRA in [0,24) and centerDec in [-90,90]; normalizeHours maps every
input into [0,24), and the Dec clamp maps every input into [-90,90]. -/
theorem slew_pointing_invariant :
    (∀ s : TelescopeState,
      0 ≤ (performSlewStep s).centerRA ∧ (performSlewStep s).centerRA < 24 ∧
      -90 ≤ (performSlewStep s).centerDec ∧ (performSlewStep s).centerDec ≤ 90) ∧
    (∀ hours : ℚ, 0 ≤ normalizeHours hours ∧ normalizeHours hours < 24) ∧
    (∀ dec : ℚ, -90 ≤ max (-90) (min 90 dec) ∧ max (-90) (min 90 dec) ≤ 90) := by
  refine ⟨fun s => ?_, fun hours => ⟨normalizeHours_nonneg hours, normalizeHours_lt hours⟩,
    fun dec => ⟨le_max_left _ _, max_le (by norm_num) (min_le_left _ _)⟩⟩
  exact ⟨normalizeHours_nonneg _, normalizeHours_lt _, le_max_left _ _,
    max_le (by norm_num) (min_le_left _ _)⟩

/-- Claim C7: calculateLST agrees with the value obtained from the Julian
Day, the GMST polynomial, fifteen times the fractional UTC hours since
midnight, the longitude, normalization to [0,360) degrees and division by
fifteen; and the result always lies in [0,24) hours. -/
theorem calculateLST_spec (date : JsDate) (longitude : ℚ) :
    calculateLST date longitude = specLST date longitude ∧
    0 ≤ calculateLST date longitude ∧ calculateLST date longitude < 24 := by
  refine ⟨?_, ?_, ?_⟩
  · simp only [calculateLST, specLST, specGMST, fracUTCHours]
    congr 1
    · congr 1
      ring
    · norm_num
  · simp only [calculateLST]
    exact div_nonneg (normalizeAngle_nonneg _) (by norm_num)
  · simp only [calculateLST]
    rw [div_lt_iff₀ (by norm_num : (0:ℚ) < 15.0)]
    calc normalizeAngle _ < 360 := normalizeAngle_lt _
      _ ≤ 24 * 15.0 := by norm_num

theorem foldNearestOpt_spec (M : JsMath) (ra dec : ℚ) (l : List AstroObject) :
    ∀ acc : Option AstroObject × WithTop ℚ,
      (l.foldl (nearestObjStep M ra dec) acc = acc ∨
        ∃ b, (l.foldl (nearestObjStep M ra dec) acc).1 = some b ∧ b ∈ l ∧
          (l.foldl (nearestObjStep M ra dec) acc).2 =
            ((angularSeparation M ra dec b.ra b.dec : ℚ) : WithTop ℚ)) ∧
      (l.foldl (nearestObjStep M ra dec) acc).2 ≤ acc.2 ∧
      ∀ o ∈ l, (l.foldl (nearestObjStep M ra dec) acc).2 ≤
        ((angularSeparation M ra dec o.ra o.dec : ℚ) : WithTop ℚ) := by
  induction l with
  | nil => intro acc; simp
  | cons o t ih =>
    intro acc
    rw [List.foldl_cons]
    by_cases hlt : ((angularSeparation M ra dec o.ra o.dec : ℚ) : WithTop ℚ) < acc.2
    · have hstep : nearestObjStep M ra dec acc o =
          (some o, ((angularSeparation M ra dec o.ra o.dec : ℚ) : WithTop ℚ)) := by
        simp [nearestObjStep, hlt]
      rw [hstep]
      obtain ⟨h1, h2, h3⟩ :=
        ih (some o, ((angularSeparation M ra dec o.ra o.dec : ℚ) : WithTop ℚ))
      refine ⟨?_, ?_, ?_⟩
      · rcases h1 with h | ⟨b, hb1, hb2, hb3⟩
        · right
          exact ⟨o, by rw [h], List.mem_cons_self o t, by rw [h]⟩
        · right
          exact ⟨b, hb1, List.mem_cons_of_mem _ hb2, hb3⟩
      · exact le_trans h2 (le_of_lt hlt)
      · intro o2 ho2
        rcases List.mem_cons.mp ho2 with rfl | ho2t
        · exact h2
        · exact h3 o2 ho2t
    · have hstep : nearestObjStep M ra dec acc o = acc := by
        simp [nearestObjStep, hlt]
      rw [hstep]
      obtain ⟨h1, h2, h3⟩ := ih acc
      refine ⟨?_, h2, ?_⟩
      · rcases h1 with h | ⟨b, hb1, hb2, hb3⟩
        · left; exact h
        · right; exact ⟨b, hb1, List.mem_cons_of_mem _ hb2, hb3⟩
      · intro o2 ho2
        rcases List.mem_cons.mp ho2 with rfl | ho2t
        · exact le_trans h2 (not_lt.mp hlt)
        · exact h3 o2 ho2t

/-- Claim C9: getNearestObject on an empty catalog returns the pair of null
and Infinity; on a non-empty catalog it returns some catalog object and its
flat-sky separation from the query point, and that separation is minimal
over the whole catalog. -/
theorem getNearestObject_spec :
    (∀ (M : JsMath) (ra dec : ℚ), getNearestObject M [] ra dec = (none, ⊤)) ∧
    (∀ (M : JsMath) (ra dec : ℚ) (o : AstroObject) (rest : List AstroObject),
      ∃ b, (getNearestObject M (o :: rest) ra dec).1 = some b ∧ b ∈ o :: rest ∧
        (getNearestObject M (o :: rest) ra dec).2 =
          ((angularSeparation M ra dec b.ra b.dec : ℚ) : WithTop ℚ) ∧
        ∀ o2 ∈ o :: rest, angularSeparation M ra dec b.ra b.dec ≤
          angularSeparation M ra dec o2.ra o2.dec) := by
  constructor
  · intro M ra dec
    simp [getNearestObject]
  · intro M ra dec o rest
    have hne : getNearestObject M (o :: rest) ra dec =
        (o :: rest).foldl (nearestObjStep M ra dec) (none, ⊤) := by
      simp [getNearestObject]
    obtain ⟨h1, _, h3⟩ := foldNearestOpt_spec M ra dec (o :: rest)
      ((none, ⊤) : Option AstroObject × WithTop ℚ)
    rcases h1 with h | ⟨b, hb1, hb2, hb3⟩
    · exfalso
      have := h3 o (List.mem_cons_self o rest)
      rw [h] at this
      exact WithTop.not_top_le_coe _ this
    · refine ⟨b, by rw [hne]; exact hb1, hb2, by rw [hne]; exact hb3, ?_⟩
      intro o2 ho2
      have := h3 o2 ho2
      rw [hb3] at this
      exact_mod_cast this

/-- Witness for claim C9: on the empty catalog with the trivial Math
instance, the query returns null with infinite distance. -/
theorem getNearestObject_spec_witness :
    getNearestObject Mtriv [] 0 0 = (none, ⊤) :=
  getNearestObject_spec.1 Mtriv 0 0

/-- Claim C10: every entry of the spectrometer's photon-rate array produced
by generateSpectrum is at least 0.01, whatever the slit object, relative
flux, wavelength grid or telescope. -/
theorem generateSpectrum_rate_floor (M : JsMath) (obj : AstroObject)
    (relativeFlux wavelengths : List ℚ) (telescopeDiam : ℚ) :
    ∀ r ∈ generateSpectrum M obj relativeFlux wavelengths telescopeDiam,
      1 / 100 ≤ r := by
  intro r hr
  simp only [generateSpectrum, generateSpectrumRates, List.mem_map] at hr
  obtain ⟨p, _, hrfl⟩ := hr
  rw [← hrfl]
  calc (1 / 100 : ℚ) = 0.01 := by norm_num
    _ ≤ _ := le_max_left _ _

/-- Witness for claim C10: the floor is attained on a concrete spectrum. -/
theorem generateSpectrum_rate_floor_witness :
    (1 / 100 : ℚ) ∈ generateSpectrum Mtriv obj10 [1] [0] 1 ∧
      (1 / 100 : ℚ) ≤ 1 / 100 := by
  have hmem : (1 / 100 : ℚ) ∈ generateSpectrum Mtriv obj10 [1] [0] 1 := by
    have hv : generateSpectrum Mtriv obj10 [1] [0] 1 = [1 / 100] := by
      simp [generateSpectrum, generateSpectrumRates, Mtriv, obj10, List.enum,
        List.enumFrom]
      norm_num
    rw [hv]
    exact List.mem_singleton.mpr rfl
  exact ⟨hmem, generateSpectrum_rate_floor Mtriv obj10 [1] [0] 1 (1 / 100) hmem⟩

/-- Claim C2 (code bug): interpolating the spectrum (1,0),(2,1) at the
out-of-range target wavelength 3 returns 2, the linear continuation of the
last segment, not the last flux value 1; the flat-extrapolation branch of
the source is unreachable because the scan index never reaches the array
length. -/
theorem interpolateSpectrum_beyond_upper :
    interpolateSpectrum [1, 2] [0, 1] [3] = [2] := by
  have h1 : interpScan [1, 2] 3 0 = 1 := by
    unfold interpScan
    norm_num [List.getD]
    unfold interpScan
    norm_num
  simp [interpolateSpectrum, interpolateOne, h1, List.getD]
  norm_num

/-- Counterexample to claim C1: with a 2-arcsecond aperture centered at
(0,0), the star 1/2400 degree away is inside the code's aperture even
though its separation exceeds the claimed radius 2/3600/2 degrees; the
code's threshold is the aperture value over 3600, with no halving. -/
theorem findObjectsInAperture_counterexample :
    obj1 ∈ findObjectsInAperture Mc1 [obj1] 0 0 2 ∧
    ¬ (angularSeparation Mc1 0 0 obj1.ra obj1.dec ≤ 2 / 3600 / 2) := by
  have hsep : angularSeparation Mc1 0 0 obj1.ra obj1.dec = 1 / 2400 := by
    simp only [angularSeparation, degreesToRadians, Mc1, obj1]
    norm_num
  constructor
  · simp only [findObjectsInAperture, List.mem_filter, List.mem_singleton,
      isWithinRadius, hsep, decide_eq_true_eq]
    norm_num
  · rw [hsep]
    norm_num

/-- Claim C1 as amended: findObjectsInAperture keeps exactly the objects
whose flat-sky separation from the center is at most apertureArcsec/3600
degrees (the aperture value converted to degrees, with no halving); in
particular an object exactly at the pointing center is always included
when the aperture is positive. -/
theorem findObjectsInAperture_spec (M : JsMath) (objects : List AstroObject)
    (centerRA centerDec apertureArcsec : ℚ) (o : AstroObject)
    (hsqrt : M.sqrt 0 = 0) (ha : 0 < apertureArcsec) :
    (o ∈ findObjectsInAperture M objects centerRA centerDec apertureArcsec ↔
      o ∈ objects ∧
        angularSeparation M centerRA centerDec o.ra o.dec ≤ apertureArcsec / 3600) ∧
    (o.ra = centerRA → o.dec = centerDec → o ∈ objects →
      o ∈ findObjectsInAperture M objects centerRA centerDec apertureArcsec) := by
  constructor
  · simp [findObjectsInAperture, isWithinRadius, List.mem_filter]
  · intro h1 h2 hmem
    simp only [findObjectsInAperture, List.mem_filter, isWithinRadius,
      decide_eq_true_eq]
    refine ⟨hmem, ?_⟩
    have harg : angularSeparation M centerRA centerDec o.ra o.dec = M.sqrt 0 := by
      simp only [angularSeparation, h1, h2]
      congr 1
      ring
    rw [harg, hsqrt]
    positivity

/-- Witness for claim C1 as amended, at the trivial Math instance, a
singleton catalog holding a star at the pointing center and a 1-arcsecond
aperture. -/
theorem findObjectsInAperture_spec_witness :
    obj10 ∈ findObjectsInAperture Mtriv [obj10] 0 0 1 :=
  (findObjectsInAperture_spec Mtriv [obj10] 0 0 1 obj10 rfl (by norm_num)).2
    rfl rfl (List.mem_singleton.mpr rfl)

/-- Counterexample to claim C3: with the atmosphere disabled and no object
in the aperture, simulatePhotometry returns an empty result, not a single
SKY measurement. -/
theorem simulatePhotometry_counterexample :
    simulatePhotometry Mtriv (fun _ => 0) (fun _ => 0) false Band.V [] 20 1 1 none
      = [] := by
  rfl

/-- Claim C3 as amended: whenever the atmosphere is enabled and the
aperture contains no objects, simulatePhotometry returns exactly one
measurement, named SKY, holding the Poisson draw at the sky mean. -/
theorem simulatePhotometry_sky (M : JsMath) (prand : ℚ → ℤ) (nrand : ℕ → ℚ)
    (currentFilter : Band) (apertureArcsec integrationTime airmass : ℚ)
    (telescope : Option Telescope) :
    simulatePhotometry M prand nrand true currentFilter [] apertureArcsec
      integrationTime airmass telescope =
    [("SKY", prand (skyLambda M currentFilter apertureArcsec integrationTime
      airmass (telescope.elim DEFAULT_TELESCOPE_DIAM Telescope.diameter)))] := by
  cases telescope <;> rfl

theorem foldNearest_spec (M : JsMath) (ra dec : ℚ) (l : List AstroObject) :
    ∀ acc : AstroObject × WithTop ℚ,
      (l.foldl (nearestStep M ra dec) acc = acc ∨
        ((l.foldl (nearestStep M ra dec) acc).1 ∈ l ∧
          (l.foldl (nearestStep M ra dec) acc).2 =
            ((angularSeparation M ra dec (l.foldl (nearestStep M ra dec) acc).1.ra
              (l.foldl (nearestStep M ra dec) acc).1.dec : ℚ) : WithTop ℚ))) ∧
      (l.foldl (nearestStep M ra dec) acc).2 ≤ acc.2 ∧
      ∀ o ∈ l, (l.foldl (nearestStep M ra dec) acc).2 ≤
        ((angularSeparation M ra dec o.ra o.dec : ℚ) : WithTop ℚ) := by
  induction l with
  | nil => intro acc; simp
  | cons o t ih =>
    intro acc
    rw [List.foldl_cons]
    by_cases hlt : ((angularSeparation M ra dec o.ra o.dec : ℚ) : WithTop ℚ) < acc.2
    · have hstep : nearestStep M ra dec acc o =
          (o, ((angularSeparation M ra dec o.ra o.dec : ℚ) : WithTop ℚ)) := by
        simp [nearestStep, hlt]
      rw [hstep]
      obtain ⟨h1, h2, h3⟩ :=
        ih (o, ((angularSeparation M ra dec o.ra o.dec : ℚ) : WithTop ℚ))
      refine ⟨?_, ?_, ?_⟩
      · rcases h1 with h | ⟨hb1, hb2⟩
        · right
          rw [h]
          exact ⟨List.mem_cons_self o t, rfl⟩
        · right
          exact ⟨List.mem_cons_of_mem _ hb1, hb2⟩
      · exact le_trans h2 (le_of_lt hlt)
      · intro o2 ho2
        rcases List.mem_cons.mp ho2 with rfl | ho2t
        · exact h2
        · exact h3 o2 ho2t
    · have hstep : nearestStep M ra dec acc o = acc := by
        simp [nearestStep, hlt]
      rw [hstep]
      obtain ⟨h1, h2, h3⟩ := ih acc
      refine ⟨?_, h2, ?_⟩
      · rcases h1 with h | ⟨hb1, hb2⟩
        · left; exact h
        · right; exact ⟨List.mem_cons_of_mem _ hb1, hb2⟩
      · intro o2 ho2
        rcases List.mem_cons.mp ho2 with rfl | ho2t
        · exact le_trans h2 (not_lt.mp hlt)
        · exact h3 o2 ho2t

theorem inSlitTest_iff (M : JsMath) (centerRA centerDec w h : ℚ) (o : AstroObject)
    (hcos : 0 ≤ M.cos (degreesToRadians M centerDec)) :
    inSlitTest M centerRA centerDec w h o = true ↔
      (|o.ra - centerRA| * 15 * M.cos (degreesToRadians M centerDec) ≤ w / 2 ∧
        |o.dec - centerDec| ≤ h / 2) := by
  have habs : |(o.ra - centerRA) * 15 * M.cos (degreesToRadians M centerDec)| =
      |o.ra - centerRA| * 15 * M.cos (degreesToRadians M centerDec) := by
    rw [abs_mul, abs_mul, abs_of_nonneg hcos]
    norm_num
  simp only [inSlitTest, Bool.and_eq_true, decide_eq_true_eq, habs]

/-- Counterexample to claim C4: with the pointing at (0,0), a star offset
1/100 degree in RA lies outside the nominal slit rectangle, yet
updateSlitContents selects it as the current slit object, because the
detection rectangle is ten times the slit width and five times its
height. -/
theorem updateSlitContents_counterexample :
    updateSlitContents Mc4 [obj4] 0 0 = some obj4 ∧
    findObjectsInSlit Mc4 [obj4] 0 0 SLIT_WIDTH_DEG SLIT_HEIGHT_DEG = [] := by
  have hcos : Mc4.cos (degreesToRadians Mc4 0) = 1 := by
    simp [Mc4, degreesToRadians]
  constructor
  · have htest : inSlitTest Mc4 0 0 (SLIT_WIDTH_DEG * 10) (SLIT_HEIGHT_DEG * 5)
        obj4 = true := by
      simp only [inSlitTest, hcos, obj4, SLIT_WIDTH_DEG, SLIT_HEIGHT_DEG,
        Bool.and_eq_true, decide_eq_true_eq]
      norm_num [abs_le]
    have hfil : findObjectsInSlit Mc4 [obj4] 0 0 (SLIT_WIDTH_DEG * 10)
        (SLIT_HEIGHT_DEG * 5) = [obj4] := by
      simp [findObjectsInSlit, List.filter_cons, htest]
    simp only [updateSlitContents, hfil, slitNearestFold, List.foldl_cons,
      List.foldl_nil, nearestStep]
    split
    · rfl
    · rfl
  · rw [findObjectsInSlit, List.filter_eq_nil_iff]
    intro o ho
    rw [List.mem_singleton] at ho
    subst ho
    simp only [inSlitTest, hcos, obj4, SLIT_WIDTH_DEG, SLIT_HEIGHT_DEG,
      Bool.and_eq_true, decide_eq_true_eq, not_and]
    intro hra
    exfalso
    rw [abs_of_nonneg (by norm_num : (0:ℚ) ≤ (1 / 1500 - 0) * 15 * 1)] at hra
    norm_num at hra

/-- Claim C4 as amended: after updateSlitContents, the current slit object
is null exactly when no catalog object passes the detection rectangle test
(RA offset within half of ten slit widths and Dec offset within half of
five slit heights), and otherwise it is an object passing that test whose
angular separation from the pointing center is minimal among all objects
passing it. -/
theorem updateSlitContents_spec (M : JsMath) (objects : List AstroObject)
    (centerRA centerDec : ℚ)
    (hcos : 0 ≤ M.cos (degreesToRadians M centerDec)) :
    (updateSlitContents M objects centerRA centerDec = none ↔
      ∀ o ∈ objects,
        ¬ (|o.ra - centerRA| * 15 * M.cos (degreesToRadians M centerDec) ≤
            SLIT_WIDTH_DEG * 10 / 2 ∧
          |o.dec - centerDec| ≤ SLIT_HEIGHT_DEG * 5 / 2)) ∧
    ∀ b, updateSlitContents M objects centerRA centerDec = some b →
      b ∈ objects ∧
      (|b.ra - centerRA| * 15 * M.cos (degreesToRadians M centerDec) ≤
          SLIT_WIDTH_DEG * 10 / 2 ∧
        |b.dec - centerDec| ≤ SLIT_HEIGHT_DEG * 5 / 2) ∧
      ∀ o ∈ objects,
        (|o.ra - centerRA| * 15 * M.cos (degreesToRadians M centerDec) ≤
            SLIT_WIDTH_DEG * 10 / 2 ∧
          |o.dec - centerDec| ≤ SLIT_HEIGHT_DEG * 5 / 2) →
        angularSeparation M centerRA centerDec b.ra b.dec ≤
          angularSeparation M centerRA centerDec o.ra o.dec := by
  rcases hfs : findObjectsInSlit M objects centerRA centerDec
    (SLIT_WIDTH_DEG * 10) (SLIT_HEIGHT_DEG * 5) with _ | ⟨first, rest⟩
  · constructor
    · simp only [updateSlitContents, hfs]
      constructor
      · intro _ o ho
        have := (List.filter_eq_nil_iff.mp hfs) o ho
        rw [← inSlitTest_iff M centerRA centerDec (SLIT_WIDTH_DEG * 10)
          (SLIT_HEIGHT_DEG * 5) o hcos]
        simpa using this
      · intro _
        trivial
    · intro b hb
      simp only [updateSlitContents, hfs] at hb
      exact absurd hb (by simp)
  · have hmemfil : ∀ o, o ∈ first :: rest ↔ o ∈ objects ∧
        (|o.ra - centerRA| * 15 * M.cos (degreesToRadians M centerDec) ≤
            SLIT_WIDTH_DEG * 10 / 2 ∧
          |o.dec - centerDec| ≤ SLIT_HEIGHT_DEG * 5 / 2) := by
      intro o
      rw [← hfs, findObjectsInSlit, List.mem_filter,
        inSlitTest_iff M centerRA centerDec (SLIT_WIDTH_DEG * 10)
          (SLIT_HEIGHT_DEG * 5) o hcos]
    constructor
    · simp only [updateSlitContents, hfs]
      constructor
      · intro h
        exact absurd h (by simp)
      · intro h
        exfalso
        have hf : first ∈ first :: rest := List.mem_cons_self first rest
        have := (hmemfil first).mp hf
        exact h first this.1 this.2
    · intro b hb
      simp only [updateSlitContents, hfs, Option.some_inj] at hb
      obtain ⟨h1, _, h3⟩ := foldNearest_spec M centerRA centerDec (first :: rest)
        (first, (⊤ : WithTop ℚ))
      have hne : (first :: rest).foldl (nearestStep M centerRA centerDec)
          (first, (⊤ : WithTop ℚ)) ≠ (first, (⊤ : WithTop ℚ)) := by
        intro h
        have := h3 first (List.mem_cons_self first rest)
        rw [h] at this
        exact WithTop.not_top_le_coe _ this
      rcases h1 with h | ⟨hb1, hb2⟩
      · exact absurd h hne
      · have hbval : b = ((first :: rest).foldl (nearestStep M centerRA centerDec)
            (first, (⊤ : WithTop ℚ))).1 := by
          rw [← hb, slitNearestFold]
        obtain ⟨hbo, hbt⟩ := (hmemfil _).mp (hbval ▸ hb1)
        refine ⟨hbo, hbt, ?_⟩
        intro o ho hto
        have hol : o ∈ first :: rest := (hmemfil o).mpr ⟨ho, hto⟩
        have := h3 o hol
        rw [hb2] at this
        rw [hbval]
        exact_mod_cast this

/-- Witness for claim C4 as amended: on an empty catalog the slit object is
null. -/
theorem updateSlitContents_spec_witness :
    updateSlitContents Mc4 [] 0 0 = none :=
  ((updateSlitContents_spec Mc4 [] 0 0
    (by simp [Mc4, degreesToRadians])).1).mpr (by simp)

/-- Claim C5: during an active auto-slew the RA difference is wrapped into
[-12,12] hours; when the wrapped difference exceeds one RA step the center
RA moves by exactly one step in the wrapped direction (then normalized);
the center Dec likewise moves one step toward the target while more than a
step away (then clamped); and when both remaining deltas are within one
step the pointing is set exactly to the target and the auto-slew
terminates, clearing the target and stopping the tick timer. -/
theorem performSlewStep_auto (s : TelescopeState) (tra tdec : ℚ)
    (hactive : s.autoSlewActive = true)
    (htarget : s.autoSlewTarget = some (tra, tdec))
    (hra0 : 0 ≤ s.centerRA) (hra1 : s.centerRA < 24)
    (htra0 : 0 ≤ tra) (htra1 : tra < 24)
    (htdec0 : -90 ≤ tdec) (htdec1 : tdec ≤ 90) :
    (-12 ≤ wrapRA (tra - s.centerRA) ∧ wrapRA (tra - s.centerRA) ≤ 12) ∧
    ((SLEW_SPEEDS.getD s.slewSpeedIndex ⟨0, 0, ""⟩).step / 15 <
        |wrapRA (tra - s.centerRA)| →
      (performSlewStep s).centerRA = normalizeHours (s.centerRA +
        jsSign (wrapRA (tra - s.centerRA)) *
          ((SLEW_SPEEDS.getD s.slewSpeedIndex ⟨0, 0, ""⟩).step / 15))) ∧
    ((SLEW_SPEEDS.getD s.slewSpeedIndex ⟨0, 0, ""⟩).step < |tdec - s.centerDec| →
      (performSlewStep s).centerDec = max (-90) (min 90 (s.centerDec +
        jsSign (tdec - s.centerDec) *
          (SLEW_SPEEDS.getD s.slewSpeedIndex ⟨0, 0, ""⟩).step))) ∧
    (|wrapRA (tra - s.centerRA)| ≤
        (SLEW_SPEEDS.getD s.slewSpeedIndex ⟨0, 0, ""⟩).step / 15 →
      |tdec - s.centerDec| ≤ (SLEW_SPEEDS.getD s.slewSpeedIndex ⟨0, 0, ""⟩).step →
      (performSlewStep s).centerRA = tra ∧ (performSlewStep s).centerDec = tdec ∧
      (performSlewStep s).autoSlewActive = false ∧
      (performSlewStep s).autoSlewTarget = none ∧
      (performSlewStep s).slewTimerOn = false) := by
  refine ⟨?_, ?_, ?_, ?_⟩
  · have hd0 : -24 < tra - s.centerRA := by linarith
    have hd1 : tra - s.centerRA < 24 := by linarith
    unfold wrapRA
    dsimp only
    split_ifs <;> constructor <;> linarith
  · intro h
    simp only [performSlewStep, hactive, htarget]
    rw [if_neg (fun hc => absurd hc.1 (not_le.mpr h)), if_pos h]
  · intro h
    simp only [performSlewStep, hactive, htarget]
    rw [if_neg (fun hc => absurd hc.2 (not_le.mpr h)), if_pos h]
  · intro h1 h2
    simp only [performSlewStep, hactive, htarget, abortSlewing, stopSlewing]
    rw [if_pos ⟨h1, h2⟩, if_neg (not_lt.mpr h1), if_neg (not_lt.mpr h2)]
    refine ⟨?_, ?_, rfl, rfl, rfl⟩
    · exact normalizeHours_eq_self tra htra0 htra1
    · rw [min_eq_right htdec1, max_eq_right htdec0]

/-- Witness for claim C5, end-to-end scenario B: one auto-slew step from
(RA 0h, Dec 0) toward (RA 23h, Dec 0) at medium speed moves the pointing
backwards through 24h to 24 - 1/15000 hours, the short way around the RA
circle. -/
theorem performSlewStep_auto_witness :
    (performSlewStep slewB).centerRA = 359999 / 15000 := by
  have hw : wrapRA (23 - slewB.centerRA) = -1 := by
    simp only [wrapRA, slewB]
    norm_num
  have hs : (SLEW_SPEEDS.getD slewB.slewSpeedIndex ⟨0, 0, ""⟩).step = 0.001 := by
    simp [SLEW_SPEEDS, slewB]
  have h := (performSlewStep_auto slewB 23 0 rfl rfl (by norm_num [slewB])
    (by norm_num [slewB]) (by norm_num) (by norm_num) (by norm_num)
    (by norm_num)).2.1
  rw [hw, hs] at h
  have h3 := h (by rw [abs_of_nonpos (by norm_num : (-1:ℚ) ≤ 0)]; norm_num)
  rw [h3]
  have harg : slewB.centerRA + jsSign (-1) * (0.001 / 15) = -1 / 15000 := by
    simp only [jsSign, slewB]
    norm_num
  rw [harg, normalizeHours_of_neg (-1 / 15000) (by norm_num) (by norm_num)]
  norm_num

theorem knuthLoop_eq (L : ℚ) (us : List ℚ) :
    ∀ (p : ℚ) (k : ℕ),
      knuthLoop L p k us = (drawsToFall L p us).map (fun n => k + n - 1) := by
  induction us with
  | nil => intro p k; rfl
  | cons u rest ih =>
    intro p k
    simp only [knuthLoop, drawsToFall]
    by_cases hL : L < p * u
    · rw [if_pos hL, if_neg (not_le.mpr hL), ih (p * u) (k + 1), Option.map_map]
      congr 1
      funext n
      simp only [Function.comp_apply]
      omega
    · rw [if_neg hL, if_pos (not_lt.mp hL)]
      simp only [Option.map_some']

theorem jsRound_max (x : ℚ) : jsRound (max 0 x) = max 0 (jsRound x) := by
  rcases le_total x 0 with h | h
  · rw [max_eq_left h]
    have h1 : jsRound x ≤ jsRound 0 := Int.floor_le_floor (by linarith)
    have h0 : jsRound (0 : ℚ) = 0 := by
      simp only [jsRound]
      norm_num
    rw [h0] at h1
    rw [max_eq_left h1, h0]
  · rw [max_eq_right h]
    have h1 : jsRound 0 ≤ jsRound x := Int.floor_le_floor (by linarith)
    have h0 : jsRound (0 : ℚ) = 0 := by
      simp only [jsRound]
      norm_num
    rw [h0] at h1
    rw [max_eq_right h1]

/-- Claim C8: for mean at least 30, poissonRandom returns the rounded,
floored-at-zero normal approximation round(max(0, lambda + sqrt(lambda) Z));
for mean below 30 it returns one less than the number of uniform draws
taken until the running product first falls to exp(-lambda) or below
(Knuth's algorithm); and every returned value is a non-negative integer. -/
theorem poissonRandom_spec (M : JsMath) (us : List ℚ) (z : ℚ) (lambda : ℚ) :
    (30 ≤ lambda →
      poissonRandom M us z lambda =
        some (jsRound (max 0 (lambda + M.sqrt lambda * z)))) ∧
    (lambda < 30 →
      poissonRandom M us z lambda =
        (drawsToFall (M.exp (-lambda)) 1 us).map (fun n => Int.ofNat (n - 1))) ∧
    (∀ v : ℤ, poissonRandom M us z lambda = some v → 0 ≤ v) := by
  refine ⟨?_, ?_, ?_⟩
  · intro h
    simp only [poissonRandom]
    rw [if_neg (not_lt.mpr h), jsRound_max]
  · intro h
    simp only [poissonRandom]
    rw [if_pos h, knuthLoop_eq (M.exp (-lambda)) us 1 0, Option.map_map]
    congr 1
    funext n
    simp only [Function.comp_apply]
    congr 1
    omega
  · intro v hv
    simp only [poissonRandom] at hv
    by_cases h : lambda < 30
    · rw [if_pos h] at hv
      obtain ⟨k, hk1, hk2⟩ := Option.map_eq_some'.mp hv
      rw [← hk2]
      exact Int.natCast_nonneg k
    · rw [if_neg h] at hv
      rw [← Option.some_inj.mp hv]
      exact le_max_left _ _

/-- Witness for claim C8: at mean 31 with normal draw 1 and a Math instance
whose square root of 31 is five, the sampler returns 36. -/
theorem poissonRandom_spec_witness : poissonRandom M8 [] 1 31 = some 36 := by
  have h := (poissonRandom_spec M8 [] 1 31).1 (by norm_num)
  rw [h]
  have hs : M8.sqrt 31 = 5 := by simp [M8]
  rw [hs]
  have : max (0 : ℚ) (31 + 5 * 1) = 36 := by norm_num
  rw [this]
  simp only [jsRound]
  norm_num

end Fitz
